import Mathlib

/-!
# Verification of the saioftp FTP server (src/saioftp.py)

Shallow embedding of the `FtpServer` class of `src/saioftp.py`.  Python
strings are modelled as `String` (with the character-list view `List Char`
for the normalization primitives), the filesystem as a partial map
`String → Option Entry`, and the per-object mutable attributes of the single
`FtpServer` instance (`pasv_server`, `pasv_reader`, `pasv_writer`,
`current_dir`, `rename_from`) as a `ServerState` record.  Failures of the
external world (socket reads, `open`, `os.rename`) are injected through an
`Env` record; `os.stat`, `os.remove` and `os.listdir` outcomes are derived
from the filesystem map itself.
-/

namespace SaioFtp

/-! ## Path normalization: `path.replace('//', '/').rstrip('/')` -/

/-- One left-to-right pass of Python `str.replace('//', '/')` on the list of
characters: each non-overlapping occurrence of two consecutive separators is
replaced by a single one, scanning resumes after the replacement. -/
def repSS : List Char → List Char
  | [] => []
  | [c] => [c]
  | a :: b :: t =>
    if a = '/' ∧ b = '/' then '/' :: repSS t
    else a :: repSS (b :: t)

/-- Python `str.rstrip('/')`: remove every trailing separator. -/
def rstripSlash : List Char → List Char
  | [] => []
  | c :: t =>
    match rstripSlash t with
    | [] => if c = '/' then [] else [c]
    | r => c :: r

/-- `s.replace('//', '/').rstrip('/')`, the normalization step shared by
`get_full_path` and `cmd_cwd` in the source. -/
def pyNormalize (s : String) : String :=
  String.mk (rstripSlash (repSS s.toList))

/-- No two consecutive separators occur in the character list. -/
def noDouble : List Char → Bool
  | a :: b :: t => !(a == '/' && b == '/') && noDouble (b :: t)
  | _ => true

/-- No three consecutive separators occur in the character list. -/
def noTriple : List Char → Bool
  | a :: b :: c :: t => !(a == '/' && b == '/' && c == '/') && noTriple (b :: c :: t)
  | _ => true

/-- `FtpServer.get_full_path` (src/saioftp.py:420-430): an argument starting
with the separator is taken as is, otherwise it is joined to the current
directory; the result is normalized. -/
def get_full_path (currentDir filename : String) : String :=
  pyNormalize
    (if filename.toList.head? = some '/' then filename
     else if currentDir ≠ "/" then currentDir ++ "/" ++ filename
     else "/" ++ filename)

/-! ## PASV port arithmetic (src/saioftp.py:61,74) -/

/-- `port = 1024 + (os.urandom(1)[0] % 64510)` with `b` the random byte. -/
def pasvPort (b : Nat) : Nat := 1024 + b % 64510

/-- First port octet of the 227 reply: `port >> 8`. -/
def pasvP1 (port : Nat) : Nat := port >>> 8

/-- Second port octet of the 227 reply: `port & 0xFF`. -/
def pasvP2 (port : Nat) : Nat := port &&& 0xFF

/-! ## Data model -/

/-- A filesystem entry: a regular file with its byte content, or a directory. -/
inductive Entry
  | file (content : List Nat)
  | dir
deriving DecidableEq

/-- The filesystem, a partial map from absolute path strings to entries.
`os.stat` succeeds exactly on paths in the map; `os.remove` and `open(_, 'rb')`
succeed exactly on regular files; `os.listdir` succeeds exactly on
directories. -/
abbrev Fs := String → Option Entry

/-- Create or overwrite an entry (`open(p, 'wb')` / rename target). -/
def fsSet (fs : Fs) (p : String) (e : Entry) : Fs :=
  fun q => if q = p then some e else fs q

/-- Remove an entry (`os.remove`). -/
def fsRemove (fs : Fs) (p : String) : Fs :=
  fun q => if q = p then none else fs q

/-- `true` exactly when the path holds a regular file. -/
def isFile : Option Entry → Bool
  | some (Entry.file _) => true
  | _ => false

/-- The mutable attributes of the single `FtpServer` object
(`FtpServer.__init__`, src/saioftp.py:26-32).  The same object is handed to
`asyncio.start_server` as the handler for every control connection
(src/saioftp.py:416-418), so this state is shared by all sessions. -/
structure ServerState where
  pasv_server : Option Nat := none
  pasv_reader : Bool := false
  pasv_writer : Bool := false
  current_dir : String := "/"
  rename_from : Option String := none
deriving DecidableEq

/-- The freshly constructed server object. -/
def initState : ServerState := {}

/-- Environment of one command execution: the random port byte, the server's
interface address (external collaborator), whether a data-connection peer
arrives during the bounded PASV wait, and the injected failure outcomes of
the fallible external operations. -/
structure Env where
  portByte : Nat := 0
  ifaddr : String := "192,168,1,2"
  bindFails : Bool := false
  dataConnects : Bool := false
  openFails : Bool := false
  recvFails : Bool := false
  recvData : List Nat := []
  sendFails : Bool := false
  renameFails : Bool := false

/-- The default environment: everything succeeds, no data peer arrives. -/
def env0 : Env := {}

/-- `FtpServer.close` (src/saioftp.py:34-54): closes the accepted data
connection and the PASV listening socket, if open. -/
def close (st : ServerState) : ServerState :=
  { st with pasv_writer := false, pasv_reader := false, pasv_server := none }

/-- The bounded retry loop at the top of LIST/RETR/STOR
(src/saioftp.py:86-89 etc.): the data-connection peer, if it arrives within
the retry budget, sets `pasv_reader`/`pasv_writer` via the accept callback. -/
def awaitData (st : ServerState) (e : Env) : ServerState :=
  if st.pasv_writer then st
  else if e.dataConnects then { st with pasv_writer := true, pasv_reader := true }
  else st

/-! ## Command handlers -/

/-- Outcome of one command line in the control loop: proceed to the next
line, break out after QUIT, or die on an exception that no handler catches
(escaping `FtpServer.server` without a reply and without `writer.close()`). -/
inductive Outcome
  | next
  | quit
  | crash
deriving DecidableEq

/-- The 227 reply line of `cmd_pasv` (src/saioftp.py:74). -/
def pasvReply (ifaddr : String) (port : Nat) : String :=
  "227 Entering Passive Mode (" ++
    (ifaddr ++ "," ++ toString (pasvP1 port) ++ "," ++ toString (pasvP2 port) ++ ")\r\n")

/-- The 257 reply line of the PWD branch (src/saioftp.py:390). -/
def pwdReply (currentDir : String) : String :=
  "257 \"" ++ (currentDir ++ "\"\r\n")

/-- `FtpServer.cmd_pasv` (src/saioftp.py:56-76): closes any existing PASV
channel, then opens a listening socket on `1024 + byte % 64510` and replies
227.  The `await asyncio.start_server(...)` call (src/saioftp.py:71) sits in
no `try` block, so a failing bind raises out of the handler: no reply is sent
and the control connection is not closed (`Outcome.crash`). -/
def cmd_pasv (st : ServerState) (e : Env) : ServerState × List String × Outcome :=
  let st := close st
  if e.bindFails then (st, [], Outcome.crash)
  else
    let port := pasvPort e.portByte
    ({ st with pasv_server := some port }, [pasvReply e.ifaddr port], Outcome.next)

/-- The resolved path checked by `cmd_cwd` (src/saioftp.py:342-351):
`new_dir = path or '/'`, absolute used as is, relative joined to the current
directory, then normalized. -/
def cwdTarget (currentDir : String) (arg : Option String) : String :=
  let new_dir := match arg with
    | none => "/"
    | some s => if s = "" then "/" else s
  pyNormalize
    (if new_dir.toList.head? = some '/' then new_dir
     else if currentDir ≠ "/" then currentDir ++ "/" ++ new_dir
     else "/" ++ new_dir)

/-- `FtpServer.cmd_cwd` (src/saioftp.py:340-360): the resolved path is
stat-checked; on success it becomes the current directory (no directory-kind
check), otherwise 550 and no change. -/
def cmd_cwd (st : ServerState) (fs : Fs) (arg : Option String) :
    ServerState × List String :=
  let check_dir := cwdTarget st.current_dir arg
  if (fs check_dir).isSome then
    ({ st with current_dir := check_dir }, ["250 OK.\r\n"])
  else (st, ["550 Failed.\r\n"])

/-- `FtpServer.cmd_list` (src/saioftp.py:78-145): 425 without a PASV server,
425 when no peer arrives within the retry budget; otherwise 150 followed by
226 (listing streamed to the data channel, bad entries skipped) or 550 when
`os.listdir` or a data write fails; the channel is closed in either case. -/
def cmd_list (st : ServerState) (fs : Fs) (e : Env) :
    ServerState × Fs × List String :=
  if st.pasv_server = none then (st, fs, ["425 Use PASV first.\r\n"])
  else
    let st := awaitData st e
    if st.pasv_writer = false then (st, fs, ["425 Data connection failed.\r\n"])
    else if fs st.current_dir = some Entry.dir ∧ e.sendFails = false then
      (close st, fs, ["150 Here comes the directory listing.\r\n",
                      "226 Directory send OK.\r\n"])
    else
      (close st, fs, ["150 Here comes the directory listing.\r\n",
                      "550 Failed.\r\n"])

/-- `FtpServer.cmd_retr` (src/saioftp.py:147-209): 425 cases as in LIST; the
file is opened before the 150 reply, so an unreadable path yields a bare 550;
a data-write failure after 150 yields 550; success yields 226.  Every failure
branch closes the data channel. -/
def cmd_retr (st : ServerState) (fs : Fs) (e : Env) (arg : Option String) :
    ServerState × Fs × List String :=
  if st.pasv_server = none then (st, fs, ["425 Use PASV first.\r\n"])
  else
    let st := awaitData st e
    if st.pasv_writer = false then (st, fs, ["425 Data connection failed.\r\n"])
    else
      match arg with
      | none => (close st, fs, ["550 Failed.\r\n"])
      | some name =>
        let full_path := get_full_path st.current_dir name
        if isFile (fs full_path) then
          if e.sendFails then
            (close st, fs, ["150 Opening data connection.\r\n", "550 Failed.\r\n"])
          else
            (close st, fs, ["150 Opening data connection.\r\n",
                            "226 Transfer complete.\r\n"])
        else (close st, fs, ["550 Failed.\r\n"])

/-- `FtpServer.cmd_stor` (src/saioftp.py:211-293): 425 cases as in LIST.
`tmp_name = filename + '.tmp'` is evaluated before the protecting `try`, so a
missing argument raises an uncaught `TypeError` (`Outcome.crash`) with no
reply.  Otherwise the temp file is opened (a failing `open` yields a bare
550), data is received into it (a failing read yields 150 then 550, the temp
file removed), and on end of stream the commit step runs: `os.remove` of the
final path with errors ignored, then `os.rename` of the temp file onto it; a
failing rename raises into the handler, which removes the temp file and
replies 550.  Every failure branch closes the data channel. -/
def cmd_stor (st : ServerState) (fs : Fs) (e : Env) (arg : Option String) :
    ServerState × Fs × List String × Outcome :=
  if st.pasv_server = none then (st, fs, ["425 Use PASV first.\r\n"], Outcome.next)
  else
    let st := awaitData st e
    if st.pasv_writer = false then
      (st, fs, ["425 Data connection failed.\r\n"], Outcome.next)
    else
      match arg with
      | none => (st, fs, [], Outcome.crash)
      | some filename =>
        let full_path := get_full_path st.current_dir (filename ++ ".tmp")
        if e.openFails then
          (close st, fsRemove fs full_path, ["550 Failed.\r\n"], Outcome.next)
        else
          let fs := fsSet fs full_path (Entry.file e.recvData)
          if e.recvFails then
            (close st, fsRemove fs full_path,
             ["150 Ok to send data.\r\n", "550 Failed.\r\n"], Outcome.next)
          else
            let final_path := get_full_path st.current_dir filename
            let fs := fsRemove fs final_path
            match fs full_path with
            | some content =>
              if e.renameFails then
                (close st, fsRemove fs full_path,
                 ["150 Ok to send data.\r\n", "550 Failed.\r\n"], Outcome.next)
              else
                (close st, fsSet (fsRemove fs full_path) final_path content,
                 ["150 Ok to send data.\r\n", "226 Transfer complete.\r\n"],
                 Outcome.next)
            | none =>
              (close st, fsRemove fs full_path,
               ["150 Ok to send data.\r\n", "550 Failed.\r\n"], Outcome.next)

/-- `FtpServer.cmd_dele` (src/saioftp.py:295-306). -/
def cmd_dele (st : ServerState) (fs : Fs) (arg : Option String) :
    ServerState × Fs × List String :=
  match arg with
  | none => (st, fs, ["550 Failed.\r\n"])
  | some name =>
    let full_path := get_full_path st.current_dir name
    if isFile (fs full_path) then
      (st, fsRemove fs full_path, ["250 File deleted.\r\n"])
    else (st, fs, ["550 Failed.\r\n"])

/-- `FtpServer.cmd_rnfr` (src/saioftp.py:308-319): on a stat-able path the
resolved source is recorded in `rename_from` and 350 is sent. -/
def cmd_rnfr (st : ServerState) (fs : Fs) (arg : Option String) :
    ServerState × Fs × List String :=
  match arg with
  | none => (st, fs, ["550 File not found.\r\n"])
  | some name =>
    let full_path := get_full_path st.current_dir name
    if (fs full_path).isSome then
      ({ st with rename_from := some full_path }, fs,
       ["350 Ready for destination name.\r\n"])
    else (st, fs, ["550 File not found.\r\n"])

/-- `FtpServer.cmd_rnto` (src/saioftp.py:321-338): `if not self.rename_from`
(`None` or the falsy empty string) replies 503 and returns with no state or
filesystem change; otherwise the rename is attempted and `rename_from` is
cleared by the `finally` clause. -/
def cmd_rnto (st : ServerState) (fs : Fs) (e : Env) (arg : Option String) :
    ServerState × Fs × List String :=
  match st.rename_from with
  | none => (st, fs, ["503 Bad sequence of commands.\r\n"])
  | some src =>
    if src = "" then (st, fs, ["503 Bad sequence of commands.\r\n"])
    else
      let st' := { st with rename_from := none }
      match arg with
      | none => (st', fs, ["550 Rename failed.\r\n"])
      | some name =>
        let full_path := get_full_path st.current_dir name
        match fs src with
        | some content =>
          if e.renameFails then (st', fs, ["550 Rename failed.\r\n"])
          else (st', fsSet (fsRemove fs src) full_path content,
                ["250 File renamed.\r\n"])
        | none => (st', fs, ["550 Rename failed.\r\n"])

/-- The verbs distinguished by the `if/elif` dispatch chain of
`FtpServer.server` (src/saioftp.py:379-411). -/
inductive Verb
  | user | pass | syst | feat | type | pwd | cwd | pasv | list | retr | stor
  | dele | rnfr | rnto | quit | unknown
deriving DecidableEq

/-- The string comparisons of the `if/elif` chain of `FtpServer.server`, in
source order. -/
def parseVerb (cmd : String) : Verb :=
  if cmd = "USER" then Verb.user
  else if cmd = "PASS" then Verb.pass
  else if cmd = "SYST" then Verb.syst
  else if cmd = "FEAT" then Verb.feat
  else if cmd = "TYPE" then Verb.type
  else if cmd = "PWD" then Verb.pwd
  else if cmd = "CWD" then Verb.cwd
  else if cmd = "PASV" then Verb.pasv
  else if cmd = "LIST" then Verb.list
  else if cmd = "RETR" then Verb.retr
  else if cmd = "STOR" then Verb.stor
  else if cmd = "DELE" then Verb.dele
  else if cmd = "RNFR" then Verb.rnfr
  else if cmd = "RNTO" then Verb.rnto
  else if cmd = "QUIT" then Verb.quit
  else Verb.unknown

/-- The per-verb effect of one iteration of the command loop of
`FtpServer.server` (src/saioftp.py:368-411). -/
def execVerb (v : Verb) (st : ServerState) (fs : Fs) (e : Env)
    (arg : Option String) : ServerState × Fs × List String × Outcome :=
  match v with
  | Verb.user => (st, fs, ["230 Logged in.\r\n"], Outcome.next)
  | Verb.pass => (st, fs, ["230 Logged in.\r\n"], Outcome.next)
  | Verb.syst => (st, fs, ["215 UNIX Type: L8\r\n"], Outcome.next)
  | Verb.feat => (st, fs, ["211-Features:\r\n211 End\r\n"], Outcome.next)
  | Verb.type => (st, fs, ["200 OK.\r\n"], Outcome.next)
  | Verb.pwd => (st, fs, [pwdReply st.current_dir], Outcome.next)
  | Verb.cwd => ((cmd_cwd st fs arg).1, fs, (cmd_cwd st fs arg).2, Outcome.next)
  | Verb.pasv =>
    ((cmd_pasv st e).1, fs, (cmd_pasv st e).2.1, (cmd_pasv st e).2.2)
  | Verb.list =>
    ((cmd_list st fs e).1, (cmd_list st fs e).2.1, (cmd_list st fs e).2.2,
     Outcome.next)
  | Verb.retr =>
    ((cmd_retr st fs e arg).1, (cmd_retr st fs e arg).2.1,
     (cmd_retr st fs e arg).2.2, Outcome.next)
  | Verb.stor => cmd_stor st fs e arg
  | Verb.dele =>
    ((cmd_dele st fs arg).1, (cmd_dele st fs arg).2.1, (cmd_dele st fs arg).2.2,
     Outcome.next)
  | Verb.rnfr =>
    ((cmd_rnfr st fs arg).1, (cmd_rnfr st fs arg).2.1, (cmd_rnfr st fs arg).2.2,
     Outcome.next)
  | Verb.rnto =>
    ((cmd_rnto st fs e arg).1, (cmd_rnto st fs e arg).2.1,
     (cmd_rnto st fs e arg).2.2, Outcome.next)
  | Verb.quit => (st, fs, ["221 Goodbye.\r\n"], Outcome.quit)
  | Verb.unknown => (st, fs, ["502 Command not implemented.\r\n"], Outcome.next)

/-- One iteration of the command loop of `FtpServer.server`
(src/saioftp.py:368-411): dispatch on the verb of one control line. -/
def handleLine (st : ServerState) (fs : Fs) (e : Env) (cmd : String)
    (arg : Option String) : ServerState × Fs × List String × Outcome :=
  execVerb (parseVerb cmd) st fs e arg

/-- How a session's control loop ended. -/
inductive SessionEnd
  | peerClosed
  | quit
  | crashed
deriving DecidableEq

/-- The control loop of `FtpServer.server` (src/saioftp.py:362-414) run over
a list of incoming command lines; an exhausted list models the empty read
(peer closed the control connection).  On QUIT and on the empty read the
code executes only `writer.close()` on the control connection — it never
calls `FtpServer.close`, so the shared state (including any open PASV
channel) is returned untouched. -/
def runSession (st : ServerState) (fs : Fs) :
    List (Env × String × Option String) → ServerState × Fs × SessionEnd
  | [] => (st, fs, SessionEnd.peerClosed)
  | (e, cmd, arg) :: rest =>
    match handleLine st fs e cmd arg with
    | (st', fs', _, Outcome.next) => runSession st' fs' rest
    | (st', fs', _, Outcome.quit) => (st', fs', SessionEnd.quit)
    | (st', fs', _, Outcome.crash) => (st', fs', SessionEnd.crashed)

/-! ## Reply classification for the one-terminating-reply property -/

/-- A control reply is preliminary exactly when its status code is 150; all
other replies the server sends are terminating. -/
def isTerminating (r : String) : Bool :=
  match r.toList with
  | '1' :: '5' :: '0' :: _ => false
  | _ => true

/-- Number of terminating replies in the control output of one command. -/
def termCount (rs : List String) : Nat :=
  (rs.filter isTerminating).length

/-! ## Concrete states, filesystems and environments used in the theorems -/

/-- The empty filesystem. -/
def fsEmpty : Fs := fun _ => none

/-- A server state with an established PASV channel (listening socket and an
accepted data connection). -/
def stPasv : ServerState :=
  { pasv_server := some 1024, pasv_reader := true, pasv_writer := true }

/-- A filesystem with the two directories `/a` and `/b`. -/
def fsAB : Fs := fun p => if p = "/a" ∨ p = "/b" then some Entry.dir else none

/-- A filesystem with a single regular file `/notes.txt`. -/
def fsNotes : Fs :=
  fun p => if p = "/notes.txt" then some (Entry.file [7, 8]) else none

/-- A filesystem with a single regular file `/f` of content `[7]`. -/
def fsOld : Fs := fun p => if p = "/f" then some (Entry.file [7]) else none

/-- Environment in which `os.rename` raises. -/
def envRenameFail : Env := { renameFails := true }

/-- Environment in which the data-connection read raises mid-transfer. -/
def envRecvFail : Env := { recvFails := true }

/-- Environment in which `asyncio.start_server` fails to bind its port. -/
def envBindFail : Env := { bindFails := true }

/-! ## Lemmas about the normalization primitives -/

/-- `repSS` preserves the first character. -/
theorem repSS_head (l : List Char) : (repSS l).head? = l.head? := by
  match l with
  | [] => rfl
  | [c] => rfl
  | a :: b :: t =>
    simp only [repSS]
    split
    · rename_i h
      rw [h.1]
      simp
    · rfl

/-- `noTriple` is closed under dropping the first character. -/
theorem noTriple_tail {a : Char} {l : List Char} (h : noTriple (a :: l) = true) :
    noTriple l = true := by
  match l with
  | [] => rfl
  | [b] => rfl
  | b :: c :: t =>
    simp only [noTriple, Bool.and_eq_true] at h
    exact h.2

/-- `noDouble` is closed under dropping the first character. -/
theorem noDouble_tail {a : Char} {l : List Char} (h : noDouble (a :: l) = true) :
    noDouble l = true := by
  match l with
  | [] => rfl
  | b :: t =>
    simp only [noDouble, Bool.and_eq_true] at h
    exact h.2

/-- A single replacement pass on a list with no triple separator leaves no
double separator. -/
theorem repSS_noDouble : ∀ l : List Char, noTriple l = true → noDouble (repSS l) = true
  | [], _ => rfl
  | [_], _ => rfl
  | a :: b :: t, h => by
    simp only [repSS]
    split
    · rename_i hab
      have ht : noTriple t = true := noTriple_tail (noTriple_tail h)
      have ih : noDouble (repSS t) = true := repSS_noDouble t ht
      cases t with
      | nil => rfl
      | cons c t' =>
        simp only [noTriple, Bool.and_eq_true, Bool.not_eq_true'] at h
        have hc : (c == '/') = false := by
          have h1 := h.1
          rw [hab.1, hab.2] at h1
          simpa using h1
        cases hr : repSS (c :: t') with
        | nil => rfl
        | cons x r =>
          have hx : x = c := by
            have := repSS_head (c :: t')
            rw [hr] at this
            simpa using this
          rw [hr] at ih
          simp only [noDouble, Bool.and_eq_true, Bool.not_eq_true']
          refine ⟨?_, ih⟩
          rw [hx]
          simp [hc]
    · rename_i hab
      have ih : noDouble (repSS (b :: t)) = true :=
        repSS_noDouble (b :: t) (noTriple_tail h)
      cases hr : repSS (b :: t) with
      | nil => rfl
      | cons x r =>
        have hx : x = b := by
          have := repSS_head (b :: t)
          rw [hr] at this
          simpa using this
        rw [hr] at ih
        simp only [noDouble, Bool.and_eq_true, Bool.not_eq_true']
        refine ⟨?_, ih⟩
        rw [hx]
        by_cases ha : a = '/'
        · by_cases hb : b = '/'
          · exact absurd ⟨ha, hb⟩ hab
          · simp [hb]
        · simp [ha]

/-- The replacement pass is the identity on lists with no double separator. -/
theorem repSS_of_noDouble : ∀ l : List Char, noDouble l = true → repSS l = l
  | [], _ => rfl
  | [_], _ => rfl
  | a :: b :: t, h => by
    simp only [noDouble, Bool.and_eq_true, Bool.not_eq_true'] at h
    simp only [repSS]
    rw [if_neg ?_, repSS_of_noDouble (b :: t) h.2]
    intro hc
    have h1 := h.1
    rw [hc.1, hc.2] at h1
    simp at h1

/-- `rstripSlash` preserves the first character of a list it does not empty. -/
theorem rstripSlash_head (l : List Char) (h : rstripSlash l ≠ []) :
    (rstripSlash l).head? = l.head? := by
  match l with
  | [] => exact absurd rfl h
  | c :: t =>
    simp only [rstripSlash] at h ⊢
    cases hr : rstripSlash t with
    | nil =>
      simp only [hr] at h ⊢
      by_cases hc : c = '/'
      · rw [if_pos hc] at h
        exact absurd rfl h
      · rw [if_neg hc]
        simp
    | cons x r => simp [hr]

/-- A list containing a non-separator character does not strip to empty. -/
theorem rstripSlash_ne_nil : ∀ l : List Char, (∃ c ∈ l, c ≠ '/') → rstripSlash l ≠ []
  | [], ⟨x, hx, _⟩ => absurd hx (List.not_mem_nil x)
  | c :: t, ⟨x, hx, hxs⟩ => by
    simp only [rstripSlash]
    cases hr : rstripSlash t with
    | nil =>
      simp only [hr]
      by_cases hc : c = '/'
      · rw [if_pos hc]
        exfalso
        rcases List.mem_cons.1 hx with h1 | h2
        · exact hxs (h1.trans hc)
        · exact rstripSlash_ne_nil t ⟨x, h2, hxs⟩ hr
      · rw [if_neg hc]
        simp
    | cons y r => simp [hr]

/-- The stripped list never ends in a separator. -/
theorem rstripSlash_getLast : ∀ l : List Char, (rstripSlash l).getLast? ≠ some '/'
  | [] => by simp [rstripSlash]
  | c :: t => by
    simp only [rstripSlash]
    cases hr : rstripSlash t with
    | nil =>
      simp only [hr]
      by_cases hc : c = '/'
      · rw [if_pos hc]
        simp
      · rw [if_neg hc]
        simp only [List.getLast?_singleton]
        intro he
        exact hc (by simpa using he)
    | cons x r =>
      simp only [hr]
      rw [List.getLast?_cons_cons, ← hr]
      exact rstripSlash_getLast t

/-- `rstripSlash` is the identity on lists not ending in a separator. -/
theorem rstripSlash_fix : ∀ l : List Char, l.getLast? ≠ some '/' → rstripSlash l = l
  | [], _ => rfl
  | [c], h => by
    simp only [List.getLast?_singleton] at h
    simp only [rstripSlash]
    rw [if_neg]
    intro hc
    exact h (by rw [hc])
  | c :: d :: t, h => by
    rw [List.getLast?_cons_cons] at h
    have ih := rstripSlash_fix (d :: t) h
    have hstep : rstripSlash (c :: d :: t) =
        match rstripSlash (d :: t) with
        | [] => if c = '/' then [] else [c]
        | r => c :: r := rfl
    rw [hstep, ih]

/-- Stripping trailing separators cannot create a double separator. -/
theorem rstripSlash_noDouble : ∀ l : List Char,
    noDouble l = true → noDouble (rstripSlash l) = true
  | [], _ => rfl
  | c :: t, h => by
    simp only [rstripSlash]
    cases hr : rstripSlash t with
    | nil =>
      simp only [hr]
      by_cases hc : c = '/'
      · rw [if_pos hc]
        rfl
      · rw [if_neg hc]
        rfl
    | cons x r =>
      simp only [hr]
      have ht : rstripSlash t ≠ [] := by rw [hr]; simp
      cases t with
      | nil => simp [rstripSlash] at hr
      | cons y t' =>
        have hx : x = y := by
          have := rstripSlash_head (y :: t') ht
          rw [hr] at this
          simpa using this
        have ih : noDouble (x :: r) = true := by
          rw [← hr]
          exact rstripSlash_noDouble (y :: t') (noDouble_tail h)
        simp only [noDouble, Bool.and_eq_true, Bool.not_eq_true']
        refine ⟨?_, ih⟩
        simp only [noDouble, Bool.and_eq_true, Bool.not_eq_true'] at h
        rw [hx]
        exact h.1

/-- Characters other than the separator survive the replacement pass. -/
theorem repSS_mem : ∀ {c : Char} (l : List Char), c ≠ '/' → c ∈ l → c ∈ repSS l
  | c, [], _, h => absurd h (List.not_mem_nil c)
  | _, [_], _, h => by simpa [repSS] using h
  | c, a :: b :: t, hc, h => by
    simp only [repSS]
    split
    · rename_i hab
      rcases List.mem_cons.1 h with h1 | h2
      · exact absurd (h1.trans hab.1) hc
      · rcases List.mem_cons.1 h2 with h3 | h4
        · exact absurd (h3.trans hab.2) hc
        · exact List.mem_cons_of_mem _ (repSS_mem t hc h4)
    · rcases List.mem_cons.1 h with h1 | h2
      · exact h1 ▸ List.mem_cons_self _ _
      · exact List.mem_cons_of_mem _ (repSS_mem (b :: t) hc h2)

/-! ## Claim C5: resolution of the root argument -/

/-- Claim C5 counterexample: the resolver applied to the absolute argument
`/` returns the empty string, not the separator alone — there is no root
special case in `get_full_path`. -/
theorem C5_counterexample : get_full_path "/foo" "/" = "" ∧ ("" : String) ≠ "/" :=
  ⟨rfl, by decide⟩

/-- Claim C5 (amended): for every session working directory, the resolver
applied to the root argument `/` returns the empty string: normalization
strips the trailing separator with no special case for root, so root
collapses to empty rather than staying the separator alone. -/
theorem C5_amended (cwd : String) : get_full_path cwd "/" = "" := rfl

/-! ## Claim C6: idempotence of the resolver on absolute arguments -/

/-- Claim C6 counterexample: the resolver is not idempotent on all absolute
arguments: `/` resolves to the empty string, which re-resolves as a relative
name to the working directory; and `///a` resolves to `//a` (the replacement
pass is single and non-overlapping), which re-resolves to `/a`. -/
theorem C6_counterexample :
    ("/".toList.head? = some '/') ∧
      get_full_path "/foo" (get_full_path "/foo" "/") ≠ get_full_path "/foo" "/" ∧
      ("///a".toList.head? = some '/') ∧
      get_full_path "/" (get_full_path "/" "///a") ≠ get_full_path "/" "///a" := by
  refine ⟨rfl, by decide, rfl, by decide⟩

/-- Claim C6 (amended): for every session working directory `cwd` and every
absolute argument `p` (one starting with the path separator) that contains no
run of three or more separators and is not made of separators alone, the
resolver is idempotent: `resolve(cwd, resolve(cwd, p)) = resolve(cwd, p)`. -/
theorem C6_amended (cwd p : String)
    (habs : p.toList.head? = some '/')
    (ht : noTriple p.toList = true)
    (hn : ∃ c ∈ p.toList, c ≠ '/') :
    get_full_path cwd (get_full_path cwd p) = get_full_path cwd p := by
  obtain ⟨x, hx, hxs⟩ := hn
  have hnd : noDouble (rstripSlash (repSS p.toList)) = true :=
    rstripSlash_noDouble _ (repSS_noDouble _ ht)
  have hne : rstripSlash (repSS p.toList) ≠ [] :=
    rstripSlash_ne_nil _ ⟨x, repSS_mem _ hxs hx, hxs⟩
  have hhead : (rstripSlash (repSS p.toList)).head? = some '/' := by
    rw [rstripSlash_head _ hne, repSS_head]
    exact habs
  have hlast : (rstripSlash (repSS p.toList)).getLast? ≠ some '/' :=
    rstripSlash_getLast _
  have h1 : get_full_path cwd p = String.mk (rstripSlash (repSS p.toList)) := by
    simp only [get_full_path, pyNormalize]
    rw [if_pos habs]
  rw [h1]
  simp only [get_full_path, pyNormalize]
  rw [if_pos
    (show (String.mk (rstripSlash (repSS p.toList))).toList.head? = some '/' from hhead)]
  show String.mk (rstripSlash (repSS (rstripSlash (repSS p.toList)))) = _
  rw [repSS_of_noDouble _ hnd, rstripSlash_fix _ hlast]

/-- Witness for C6 at `cwd = "/x"`, `p = "/a//b/"`. -/
theorem C6_witness :
    ("/a//b/".toList.head? = some '/') ∧ noTriple "/a//b/".toList = true ∧
      (∃ c ∈ "/a//b/".toList, c ≠ '/') ∧
      get_full_path "/x" (get_full_path "/x" "/a//b/") = get_full_path "/x" "/a//b/" :=
  ⟨by decide, by decide, by decide,
    C6_amended "/x" "/a//b/" (by decide) (by decide) (by decide)⟩

/-! ## Claim C9: the PASV port range and reply octets -/

set_option maxRecDepth 4000 in
/-- All 256 byte values give a port in `[1024, 1279]` with first octet 4. -/
theorem pasvPort_octets : ∀ b : Fin 256,
    1024 ≤ pasvPort b.val ∧ pasvPort b.val ≤ 1279 ∧ pasvP1 (pasvPort b.val) = 4 ∧
      pasvP1 (pasvPort b.val) * 256 + pasvP2 (pasvPort b.val) = pasvPort b.val := by
  decide

/-- Claim C9: for every PASV command the chosen listening port
`1024 + byte % 64510` lies in `[1024, 1279]` (the modulo never alters a byte
value), the first reply octet `port >> 8` is always 4, and
`p1 * 256 + p2` reconstructs the bound port. -/
theorem C9_pasv_port (b : Nat) (hb : b < 256) :
    1024 ≤ pasvPort b ∧ pasvPort b ≤ 1279 ∧ pasvP1 (pasvPort b) = 4 ∧
      pasvP1 (pasvPort b) * 256 + pasvP2 (pasvPort b) = pasvPort b :=
  pasvPort_octets ⟨b, hb⟩

/-- Witness for C9 at byte 0. -/
theorem C9_witness :
    (0 : Nat) < 256 ∧
      (1024 ≤ pasvPort 0 ∧ pasvPort 0 ≤ 1279 ∧ pasvP1 (pasvPort 0) = 4 ∧
        pasvP1 (pasvPort 0) * 256 + pasvP2 (pasvPort 0) = pasvPort 0) :=
  ⟨by decide, C9_pasv_port 0 (by decide)⟩

/-! ## Small lemmas about the filesystem map and the data-connection wait -/

theorem fsSet_same (fs : Fs) (p : String) (en : Entry) : fsSet fs p en p = some en := by
  simp [fsSet]

theorem fsSet_other (fs : Fs) (p q : String) (en : Entry) (h : q ≠ p) :
    fsSet fs p en q = fs q := by
  simp [fsSet, h]

theorem fsRemove_same (fs : Fs) (p : String) : fsRemove fs p p = none := by
  simp [fsRemove]

theorem fsRemove_other (fs : Fs) (p q : String) (h : q ≠ p) : fsRemove fs p q = fs q := by
  simp [fsRemove, h]

/-- If the data connection was already accepted or a peer arrives during the
retry loop, the wait ends with an accepted connection. -/
theorem awaitData_writer_of (st : ServerState) (e : Env)
    (h : st.pasv_writer = true ∨ e.dataConnects = true) :
    (awaitData st e).pasv_writer = true := by
  unfold awaitData
  rcases h with h | h
  · rw [if_pos h]
    exact h
  · by_cases hw : st.pasv_writer = true
    · rw [if_pos hw]
      exact hw
    · rw [if_neg hw, if_pos h]

/-- Conversely, an accepted connection after the wait means it was already
accepted or a peer arrived. -/
theorem awaitData_writer_inv (st : ServerState) (e : Env)
    (h : (awaitData st e).pasv_writer = true) :
    st.pasv_writer = true ∨ e.dataConnects = true := by
  unfold awaitData at h
  split_ifs at h with h1 h2
  · exact Or.inl h1
  · exact Or.inr h2
  · exact Or.inl h

/-- The wait loop does not touch the current directory. -/
theorem awaitData_current_dir (st : ServerState) (e : Env) :
    (awaitData st e).current_dir = st.current_dir := by
  unfold awaitData
  split_ifs <;> rfl

/-! ## Claim C7: RNTO without a recorded rename source -/

/-- Claim C7: in every session state whose pending rename source is absent,
RNTO with any argument replies `503 Bad sequence of commands` and performs no
filesystem mutation and no session-state change. -/
theorem C7_rnto_503 (st : ServerState) (fs : Fs) (e : Env) (arg : Option String)
    (h : st.rename_from = none) :
    cmd_rnto st fs e arg = (st, fs, ["503 Bad sequence of commands.\r\n"]) := by
  simp only [cmd_rnto, h]

/-- Witness for C7 on the fresh session state. -/
theorem C7_witness :
    initState.rename_from = none ∧
      cmd_rnto initState fsEmpty env0 (some "b.txt") =
        (initState, fsEmpty, ["503 Bad sequence of commands.\r\n"]) :=
  ⟨rfl, C7_rnto_503 initState fsEmpty env0 (some "b.txt") rfl⟩

/-! ## Claim C8: CWD with a failing stat -/

/-- Claim C8: for every CWD command whose resolved path does not stat
successfully, the reply is `550 Failed.` and the session state — in
particular its current working directory — is unchanged; consequently the
current directory is updated only when the stat of the resolved path
succeeds. -/
theorem C8_cwd_fail (st : ServerState) (fs : Fs) (arg : Option String)
    (h : fs (cwdTarget st.current_dir arg) = none) :
    cmd_cwd st fs arg = (st, ["550 Failed.\r\n"]) := by
  simp only [cmd_cwd, h, Option.isSome_none, Bool.false_eq_true, if_false]

/-- Witness for C8: `CWD missing_dir` on the empty filesystem. -/
theorem C8_witness :
    fsEmpty (cwdTarget initState.current_dir (some "missing_dir")) = none ∧
      cmd_cwd initState fsEmpty (some "missing_dir") = (initState, ["550 Failed.\r\n"]) :=
  ⟨rfl, C8_cwd_fail initState fsEmpty (some "missing_dir") rfl⟩

/-! ## Claim C10: CWD onto a regular file -/

/-- Claim C10: a CWD command whose resolved path stats successfully is
accepted even when that path is a regular file: the check is stat-success
only, so the reply is `250 OK.` and the session's current working directory
becomes the non-directory path. -/
theorem C10_cwd_file (st : ServerState) (fs : Fs) (arg : Option String)
    (bytes : List Nat)
    (h : fs (cwdTarget st.current_dir arg) = some (Entry.file bytes)) :
    cmd_cwd st fs arg =
      ({ st with current_dir := cwdTarget st.current_dir arg }, ["250 OK.\r\n"]) := by
  simp only [cmd_cwd, h, Option.isSome_some, if_true]

/-- Witness for C10: `CWD notes.txt` onto the regular file `/notes.txt`. -/
theorem C10_witness :
    fsNotes (cwdTarget initState.current_dir (some "notes.txt")) =
        some (Entry.file [7, 8]) ∧
      cmd_cwd initState fsNotes (some "notes.txt") =
        ({ initState with
            current_dir := cwdTarget initState.current_dir (some "notes.txt") },
         ["250 OK.\r\n"]) :=
  ⟨by decide, C10_cwd_file initState fsNotes (some "notes.txt") [7, 8] (by decide)⟩

/-! ## Claim C2: sessions share the single FtpServer object's state -/

/-- Claim C2 (code-bug evidence): the code stores `current_dir` (and the PASV
and rename state) on the single `FtpServer` object that serves every control
connection, so a command on one session changes another session's observable
state.  Concretely: session A runs `CWD /a`; A's `PWD` then replies
`257 "/a"` if no other session acts, but replies `257 "/b"` after session B
runs `CWD /b` on the shared object — the two-run comparison differs, contrary
to the claimed isolation. -/
theorem C2_shared_state :
    (handleLine (cmd_cwd initState fsAB (some "/a")).1 fsAB env0 "PWD" none).2.2.1 =
        ["257 \"/a\"\r\n"] ∧
      (handleLine (cmd_cwd (cmd_cwd initState fsAB (some "/a")).1 fsAB (some "/b")).1
          fsAB env0 "PWD" none).2.2.1 = ["257 \"/b\"\r\n"] ∧
      (["257 \"/a\"\r\n"] : List String) ≠ ["257 \"/b\"\r\n"] :=
  ⟨by decide, by decide, by decide⟩

/-! ## Claim C3: session termination does not close the data channel -/

/-- Claim C3 (code-bug evidence): a session that opens a Passive Data Channel
with PASV and then terminates via QUIT ends with the PASV listening socket
still open: the control loop of `FtpServer.server` breaks out and closes only
the control writer, never calling `FtpServer.close`, so the session reaches
its terminal state with the data channel open — contrary to the claimed
teardown-before-destruction. -/
theorem C3_pasv_leak :
    (runSession initState fsEmpty [(env0, "PASV", none), (env0, "QUIT", none)]).2.2 =
        SessionEnd.quit ∧
      (runSession initState fsEmpty
          [(env0, "PASV", none), (env0, "QUIT", none)]).1.pasv_server = some 1024 :=
  ⟨by decide, by decide⟩

/-! ## Claim C1: STOR failure behavior and the temp-file protocol -/

/-- Claim C1 counterexample: a STOR that fails during the commit step
destroys the pre-existing target.  With `/f` holding content `[7]`, an
established data channel, and a failing `os.rename`, the STOR of `f` ends in
`550 Failed.` with the final path `/f` absent — the pre-existing file is not
byte-for-byte unchanged, because the commit step removed it before the rename
raised. -/
theorem C1_counterexample :
    fsOld "/f" = some (Entry.file [7]) ∧
      (cmd_stor stPasv fsOld envRenameFail (some "f")).2.2.1 =
        ["150 Ok to send data.\r\n", "550 Failed.\r\n"] ∧
      (cmd_stor stPasv fsOld envRenameFail (some "f")).2.1 "/f" = none :=
  ⟨rfl, by decide, by decide⟩

/-- Claim C1 (amended): for a STOR over an established data channel whose
temp path differs from the final path: no `.tmp` artifact remains whatever
the outcome; a failure at temp-file open or during the data-receive loop
leaves the pre-existing file at the final target path byte-for-byte
unchanged; but the commit step is a remove followed by a rename rather than a
single atomic rename, so when the rename itself fails the pre-existing target
has already been removed and the final path is left absent. -/
theorem C1_amended (st : ServerState) (fs : Fs) (e : Env) (name : String)
    (hs : ¬st.pasv_server = none)
    (hw : st.pasv_writer = true ∨ e.dataConnects = true)
    (hne : get_full_path st.current_dir (name ++ ".tmp") ≠
      get_full_path st.current_dir name) :
    (cmd_stor st fs e (some name)).2.1
        (get_full_path st.current_dir (name ++ ".tmp")) = none ∧
      ((e.openFails = true ∨ e.recvFails = true) →
        (cmd_stor st fs e (some name)).2.1 (get_full_path st.current_dir name) =
          fs (get_full_path st.current_dir name)) ∧
      (e.openFails = false → e.recvFails = false → e.renameFails = true →
        (cmd_stor st fs e (some name)).2.1 (get_full_path st.current_dir name) =
          none) := by
  have hw' : (awaitData st e).pasv_writer = true := awaitData_writer_of st e hw
  have hcd : (awaitData st e).current_dir = st.current_dir := awaitData_current_dir st e
  have hne' : get_full_path st.current_dir name ≠
      get_full_path st.current_dir (name ++ ".tmp") := Ne.symm hne
  refine ⟨?_, ?_, ?_⟩
  · cases ho : e.openFails <;> cases hv : e.recvFails <;> cases hr : e.renameFails <;>
      simp [cmd_stor, fsSet, fsRemove, hs, hw', hcd, ho, hv, hr, hne, hne']
  · rintro (h1 | h1)
    · cases hv : e.recvFails <;> cases hr : e.renameFails <;>
        simp [cmd_stor, fsSet, fsRemove, hs, hw', hcd, h1, hv, hr, hne, hne']
    · cases ho : e.openFails <;> cases hr : e.renameFails <;>
        simp [cmd_stor, fsSet, fsRemove, hs, hw', hcd, ho, h1, hr, hne, hne']
  · intro h1 h2 h3
    simp [cmd_stor, fsSet, fsRemove, hs, hw', hcd, h1, h2, h3, hne, hne']

/-- Witness for C1 on the empty filesystem with an established data channel
and no injected failure. -/
theorem C1_witness :
    (¬stPasv.pasv_server = none) ∧
      (stPasv.pasv_writer = true ∨ env0.dataConnects = true) ∧
      (get_full_path stPasv.current_dir ("f" ++ ".tmp") ≠
        get_full_path stPasv.current_dir "f") ∧
      ((cmd_stor stPasv fsEmpty env0 (some "f")).2.1
          (get_full_path stPasv.current_dir ("f" ++ ".tmp")) = none ∧
        ((env0.openFails = true ∨ env0.recvFails = true) →
          (cmd_stor stPasv fsEmpty env0 (some "f")).2.1
              (get_full_path stPasv.current_dir "f") =
            fsEmpty (get_full_path stPasv.current_dir "f")) ∧
        (env0.openFails = false → env0.recvFails = false → env0.renameFails = true →
          (cmd_stor stPasv fsEmpty env0 (some "f")).2.1
              (get_full_path stPasv.current_dir "f") = none)) :=
  ⟨by decide, Or.inl rfl, by decide,
    C1_amended stPasv fsEmpty env0 "f" (by decide) (Or.inl rfl) (by decide)⟩

/-! ## Claim C4: one terminating reply per command line -/

theorem termCount_cwd (st : ServerState) (fs : Fs) (arg : Option String) :
    termCount (cmd_cwd st fs arg).2 = 1 := by
  simp only [cmd_cwd]
  split_ifs <;> rfl

theorem termCount_pasv (st : ServerState) (e : Env) (h : e.bindFails = false) :
    termCount (cmd_pasv st e).2.1 = 1 := by
  simp only [cmd_pasv, h, Bool.false_eq_true, if_false]
  rfl

theorem termCount_list (st : ServerState) (fs : Fs) (e : Env) :
    termCount (cmd_list st fs e).2.2 = 1 := by
  simp only [cmd_list]
  split_ifs <;> rfl

theorem termCount_retr (st : ServerState) (fs : Fs) (e : Env) (arg : Option String) :
    termCount (cmd_retr st fs e arg).2.2 = 1 := by
  cases arg with
  | none => simp only [cmd_retr]; split_ifs <;> rfl
  | some name => simp only [cmd_retr]; split_ifs <;> rfl

theorem termCount_dele (st : ServerState) (fs : Fs) (arg : Option String) :
    termCount (cmd_dele st fs arg).2.2 = 1 := by
  cases arg with
  | none => rfl
  | some name => simp only [cmd_dele]; split_ifs <;> rfl

theorem termCount_rnfr (st : ServerState) (fs : Fs) (arg : Option String) :
    termCount (cmd_rnfr st fs arg).2.2 = 1 := by
  cases arg with
  | none => rfl
  | some name => simp only [cmd_rnfr]; split_ifs <;> rfl

theorem termCount_rnto (st : ServerState) (fs : Fs) (e : Env) (arg : Option String) :
    termCount (cmd_rnto st fs e arg).2.2 = 1 := by
  rcases h : st.rename_from with _ | src
  · simp only [cmd_rnto, h]
    rfl
  · simp only [cmd_rnto, h]
    by_cases h1 : src = ""
    · rw [if_pos h1]
      rfl
    · rw [if_neg h1]
      cases arg with
      | none => rfl
      | some name =>
        rcases hs : fs src with _ | content
        · simp only [hs]
          rfl
        · simp only [hs]
          split_ifs <;> rfl

theorem termCount_stor_some (st : ServerState) (fs : Fs) (e : Env) (name : String) :
    termCount (cmd_stor st fs e (some name)).2.2.1 = 1 := by
  simp only [cmd_stor]
  split_ifs <;> try rfl
  all_goals (split <;> rfl)

theorem termCount_stor_none (st : ServerState) (fs : Fs) (e : Env)
    (h : ¬(¬st.pasv_server = none ∧ (st.pasv_writer = true ∨ e.dataConnects = true))) :
    termCount (cmd_stor st fs e none).2.2.1 = 1 := by
  simp only [cmd_stor]
  split_ifs with h1 h2
  · rfl
  · rfl
  · exfalso
    have hwr : (awaitData st e).pasv_writer = true := by
      cases hb : (awaitData st e).pasv_writer
      · exact absurd hb h2
      · rfl
    exact h ⟨h1, awaitData_writer_inv st e hwr⟩

/-- Only the command string `STOR` parses to the STOR verb. -/
theorem parseVerb_stor {cmd : String} (h : parseVerb cmd = Verb.stor) :
    cmd = "STOR" := by
  unfold parseVerb at h
  by_cases h1 : cmd = "USER"
  · rw [if_pos h1] at h; exact absurd h (by decide)
  rw [if_neg h1] at h
  by_cases h2 : cmd = "PASS"
  · rw [if_pos h2] at h; exact absurd h (by decide)
  rw [if_neg h2] at h
  by_cases h3 : cmd = "SYST"
  · rw [if_pos h3] at h; exact absurd h (by decide)
  rw [if_neg h3] at h
  by_cases h4 : cmd = "FEAT"
  · rw [if_pos h4] at h; exact absurd h (by decide)
  rw [if_neg h4] at h
  by_cases h5 : cmd = "TYPE"
  · rw [if_pos h5] at h; exact absurd h (by decide)
  rw [if_neg h5] at h
  by_cases h6 : cmd = "PWD"
  · rw [if_pos h6] at h; exact absurd h (by decide)
  rw [if_neg h6] at h
  by_cases h7 : cmd = "CWD"
  · rw [if_pos h7] at h; exact absurd h (by decide)
  rw [if_neg h7] at h
  by_cases h8 : cmd = "PASV"
  · rw [if_pos h8] at h; exact absurd h (by decide)
  rw [if_neg h8] at h
  by_cases h9 : cmd = "LIST"
  · rw [if_pos h9] at h; exact absurd h (by decide)
  rw [if_neg h9] at h
  by_cases h10 : cmd = "RETR"
  · rw [if_pos h10] at h; exact absurd h (by decide)
  rw [if_neg h10] at h
  by_cases h11 : cmd = "STOR"
  · exact h11
  rw [if_neg h11] at h
  by_cases h12 : cmd = "DELE"
  · rw [if_pos h12] at h; exact absurd h (by decide)
  rw [if_neg h12] at h
  by_cases h13 : cmd = "RNFR"
  · rw [if_pos h13] at h; exact absurd h (by decide)
  rw [if_neg h13] at h
  by_cases h14 : cmd = "RNTO"
  · rw [if_pos h14] at h; exact absurd h (by decide)
  rw [if_neg h14] at h
  by_cases h15 : cmd = "QUIT"
  · rw [if_pos h15] at h; exact absurd h (by decide)
  rw [if_neg h15] at h
  exact absurd h (by decide)

/-- Only the command string `PASV` parses to the PASV verb. -/
theorem parseVerb_pasv {cmd : String} (h : parseVerb cmd = Verb.pasv) :
    cmd = "PASV" := by
  unfold parseVerb at h
  by_cases h1 : cmd = "USER"
  · rw [if_pos h1] at h; exact absurd h (by decide)
  rw [if_neg h1] at h
  by_cases h2 : cmd = "PASS"
  · rw [if_pos h2] at h; exact absurd h (by decide)
  rw [if_neg h2] at h
  by_cases h3 : cmd = "SYST"
  · rw [if_pos h3] at h; exact absurd h (by decide)
  rw [if_neg h3] at h
  by_cases h4 : cmd = "FEAT"
  · rw [if_pos h4] at h; exact absurd h (by decide)
  rw [if_neg h4] at h
  by_cases h5 : cmd = "TYPE"
  · rw [if_pos h5] at h; exact absurd h (by decide)
  rw [if_neg h5] at h
  by_cases h6 : cmd = "PWD"
  · rw [if_pos h6] at h; exact absurd h (by decide)
  rw [if_neg h6] at h
  by_cases h7 : cmd = "CWD"
  · rw [if_pos h7] at h; exact absurd h (by decide)
  rw [if_neg h7] at h
  by_cases h8 : cmd = "PASV"
  · exact h8
  rw [if_neg h8] at h
  by_cases h9 : cmd = "LIST"
  · rw [if_pos h9] at h; exact absurd h (by decide)
  rw [if_neg h9] at h
  by_cases h10 : cmd = "RETR"
  · rw [if_pos h10] at h; exact absurd h (by decide)
  rw [if_neg h10] at h
  by_cases h11 : cmd = "STOR"
  · rw [if_pos h11] at h; exact absurd h (by decide)
  rw [if_neg h11] at h
  by_cases h12 : cmd = "DELE"
  · rw [if_pos h12] at h; exact absurd h (by decide)
  rw [if_neg h12] at h
  by_cases h13 : cmd = "RNFR"
  · rw [if_pos h13] at h; exact absurd h (by decide)
  rw [if_neg h13] at h
  by_cases h14 : cmd = "RNTO"
  · rw [if_pos h14] at h; exact absurd h (by decide)
  rw [if_neg h14] at h
  by_cases h15 : cmd = "QUIT"
  · rw [if_pos h15] at h; exact absurd h (by decide)
  rw [if_neg h15] at h
  exact absurd h (by decide)

/-- Claim C4 counterexample: two command lines produce no reply at all and
kill the handler on an uncaught exception without closing the control
connection.  With an established data channel, `STOR` with no argument raises
at `tmp_name = filename + '.tmp'` before the protecting `try` block; and
`PASV` whose `asyncio.start_server` bind fails raises with no `try` block at
all. -/
theorem C4_counterexample :
    (handleLine stPasv fsEmpty env0 "STOR" none).2.2.1 = [] ∧
      (handleLine stPasv fsEmpty env0 "STOR" none).2.2.2 = Outcome.crash ∧
      (handleLine initState fsEmpty envBindFail "PASV" none).2.2.1 = [] ∧
      (handleLine initState fsEmpty envBindFail "PASV" none).2.2.2 = Outcome.crash :=
  ⟨by decide, by decide, by decide, by decide⟩

/-- Claim C4 (amended): every command line received on the control connection
yields exactly one terminating status reply (single or multi-line, with 150
counted as preliminary) — except the two no-reply crash paths: a `STOR` with
no argument while a data connection is established, and a `PASV` whose
listening-socket bind fails; both raise an uncaught exception before any
reply and without closing the control connection. -/
theorem C4_amended (st : ServerState) (fs : Fs) (e : Env) (cmd : String)
    (arg : Option String)
    (h : ¬(cmd = "STOR" ∧ arg = none ∧ ¬st.pasv_server = none ∧
      (st.pasv_writer = true ∨ e.dataConnects = true)))
    (hb : ¬(cmd = "PASV" ∧ e.bindFails = true)) :
    termCount (handleLine st fs e cmd arg).2.2.1 = 1 := by
  show termCount (execVerb (parseVerb cmd) st fs e arg).2.2.1 = 1
  cases hv : parseVerb cmd with
  | user => rfl
  | pass => rfl
  | syst => rfl
  | feat => rfl
  | type => rfl
  | pwd => rfl
  | cwd => exact termCount_cwd st fs arg
  | pasv =>
    refine termCount_pasv st e ?_
    cases hbf : e.bindFails
    · rfl
    · exact absurd ⟨parseVerb_pasv hv, hbf⟩ hb
  | list => exact termCount_list st fs e
  | retr => exact termCount_retr st fs e arg
  | stor =>
    cases arg with
    | some name => exact termCount_stor_some st fs e name
    | none =>
      refine termCount_stor_none st fs e ?_
      intro hcon
      exact h ⟨parseVerb_stor hv, rfl, hcon.1, hcon.2⟩
  | dele => exact termCount_dele st fs arg
  | rnfr => exact termCount_rnfr st fs arg
  | rnto => exact termCount_rnto st fs e arg
  | quit => rfl
  | unknown => rfl

/-- Witness for C4 on the `SYST` command in the fresh state. -/
theorem C4_witness :
    (¬("SYST" = "STOR" ∧ (none : Option String) = none ∧
        ¬initState.pasv_server = none ∧
        (initState.pasv_writer = true ∨ env0.dataConnects = true))) ∧
      (¬("SYST" = "PASV" ∧ env0.bindFails = true)) ∧
      termCount (handleLine initState fsEmpty env0 "SYST" none).2.2.1 = 1 :=
  ⟨by decide, by decide,
    C4_amended initState fsEmpty env0 "SYST" none (by decide) (by decide)⟩

end SaioFtp
